import Mathlib

/-!
Verification development for the GenAI Content Labeling System backend.

The definitions below are a shallow embedding of the Python backend:

* `src/backend/src/main.py` — the current FastAPI application
  (`get_labeler_task`, `submit_label`, `bulk_upload_content`,
  `admin_upload_urls`), over the SQLAlchemy models of
  `src/backend/src/models.py` (`ContentItem`, `Label`, `User`).
* `src/backend/main.py` — the legacy variant of the application, over the
  models of `src/backend/models.py` (`Website`, `Label`).
* `src/backend/src/ai_service.py` — the `AIContentAnalyzer` class
  (`analyze_content_with_ai`, `_analyze_url_based_fallback`,
  `_parse_fallback_response`, `_create_error_response`).

The database is modelled as in-memory lists kept in insertion (primary-key)
order; SQLAlchemy's `.first()` on an unordered filtered query is modelled as
`List.find?` over that order, and row mutation as replacement of the row with
the matching primary key.  Wall-clock timestamps are abstracted to `Nat`
ticks supplied by the caller, and ISO-timestamp parsing to a pre-parsed
`Option Int` argument.  The external Gemini model call is an input of the
embedding (`ModelOutcome`): the raw response cannot be computed inside the
program, so it is universally quantified.
-/

namespace GenAI

/-- The `ContentStatus` enumeration of `src/backend/src/models.py`. -/
inductive ContentStatus where
  | pending
  | in_progress
  | completed
  | failed
deriving Repr, DecidableEq

/-- The `LabelClassification` enumeration of `src/backend/src/models.py`. -/
inductive LabelClassification where
  | ai_generated
  | human_created
  | uncertain
deriving Repr, DecidableEq

/-- The `UserRole` enumeration of `src/backend/src/models.py`. -/
inductive UserRole where
  | admin
  | labeler
  | viewer
deriving Repr, DecidableEq

/-- The fields of the `User` model relevant to the labeling core. -/
structure User where
  id : Nat
  role : UserRole
  is_active : Bool
deriving Repr, DecidableEq

/-- The fields of the `ContentItem` model touched by the labeling core
(`src/backend/src/models.py`).  `completed_at` is a clock tick. -/
structure ContentItem where
  id : Nat
  url : String
  status : ContentStatus
  priority : Nat
  assigned_user_id : Option Nat
  completed_at : Option Nat
deriving Repr, DecidableEq

/-- The fields of the `Label` model set by `submit_label`
(`src/backend/src/models.py`).  There is no uniqueness constraint on the
(`content_item_id`, `labeler_id`) pair in the model. -/
structure Label where
  content_item_id : Nat
  labeler_id : Nat
  classification : LabelClassification
  confidence_score : Nat
  ai_indicators : List String
  human_indicators : List String
  custom_tags : List String
  time_spent_seconds : Int
deriving Repr, DecidableEq

/-- The database state seen by the current backend: rows in insertion
(primary-key) order. -/
structure DB where
  users : List User
  content_items : List ContentItem
  labels : List Label
deriving Repr, DecidableEq

/-- Replace the content row whose primary key matches the mutated row
(SQLAlchemy row mutation + commit). -/
def updateItem (items : List ContentItem) (c : ContentItem) : List ContentItem :=
  items.map (fun x => if x.id = c.id then c else x)

/-- Next autoincrement primary key for `content_items`. -/
def nextContentId (db : DB) : Nat :=
  (db.content_items.map (fun c => c.id)).foldl max 0 + 1

/-- Number of distinct labelers having a `Label` row on content item `cid`
(the `countDistinctLabelers` collaborator of the spec, computed from the
`labels` table as the legacy variant's `label_counts_subquery` does). -/
def distinctLabelerCount (db : DB) (cid : Nat) : Nat :=
  (((db.labels.filter (fun l => l.content_item_id = cid)).map
      (fun l => l.labeler_id)).dedup).length

/-- Whether labeler `uid` already has a `Label` row on content item `cid`. -/
def hasLabel (db : DB) (cid uid : Nat) : Bool :=
  db.labels.any (fun l => l.content_item_id = cid && l.labeler_id = uid)

/-- The `TaskResponse` of `GET /labeler/task`: either an assigned task or the
"No Tasks" message (`task_start_time` is wall clock and omitted). -/
inductive TaskResponse where
  | task (website_id : Nat) (website_url : String) (user_id : Nat)
  | noTask
deriving Repr, DecidableEq

/-- Embedding of `get_labeler_task` of `src/backend/src/main.py` (lines 1396–1465).
First the re-entry query (`assigned_user_id == user`, `status ==
IN_PROGRESS`), then the availability query (`status == PENDING` and
(`assigned_user_id` is NULL or equals the user)); if found, the item is
assigned to the user (when not already) and moved to `IN_PROGRESS`. -/
def get_labeler_task (db : DB) (uid : Nat) : TaskResponse × DB :=
  match db.content_items.find?
      (fun c => c.assigned_user_id = some uid && c.status = ContentStatus.in_progress) with
  | some existing => (TaskResponse.task existing.id existing.url uid, db)
  | none =>
    match db.content_items.find?
        (fun c => c.status = ContentStatus.pending &&
          (c.assigned_user_id = none || c.assigned_user_id = some uid)) with
    | none => (TaskResponse.noTask, db)
    | some c =>
      let assigned := if c.assigned_user_id = some uid then c
        else { c with assigned_user_id := some uid }
      let c' := { assigned with status := ContentStatus.in_progress }
      (TaskResponse.task c'.id c'.url uid,
        { db with content_items := updateItem db.content_items c' })

/-- Outcome of `POST /labeler/submit_label`: success, or the HTTP error
(status code and detail) the endpoint ultimately raises. -/
inductive SubmitResult where
  | success
  | httpError (status_code : Nat) (detail : String)
deriving Repr, DecidableEq

/-- Python `str.split(sep)` for a one-character separator, on exploded
strings (keeps empty pieces, as Python does). -/
def splitChar (sep : Char) : List Char → List (List Char)
  | [] => [[]]
  | c :: rest =>
    let r := splitChar sep rest
    if c = sep then [] :: r
    else
      match r with
      | [] => [[c]]
      | h :: t => (c :: h) :: t

/-- Python `str.strip()`: drop whitespace from both ends. -/
def trimChars (l : List Char) : List Char :=
  ((l.dropWhile Char.isWhitespace).reverse.dropWhile Char.isWhitespace).reverse

/-- Python `str.lower()`. -/
def strLower (s : String) : String := String.mk (s.toList.map Char.toLower)

/-- The comma-split-strip-filter idiom used by `submit_label` for
indicators and tags. -/
def splitCommaTrim (s : String) : List String :=
  ((splitChar ',' s.toList).map (fun cs => String.mk (trimChars cs))).filter
    (fun t => t ≠ "")

/-- Embedding of `submit_label` of `src/backend/src/main.py` (lines 1466–1583).
The content query requires `id == website_id` and `assigned_user_id ==
user_id`; on a miss the handler raises an `HTTPException(400, "Content
item not found or not assigned to the specified user")`, but that raise
sits inside the endpoint's `try:` whose trailing `except Exception as e`
(line 1579) catches it (`HTTPException` subclasses `Exception`, and the
`except ValueError` arm does not match) and re-raises
`HTTPException(500, f"Failed to submit label: {str(e)}")`, where
`str` of a starlette `HTTPException` renders as `"{status_code}: {detail}"`
— so the endpoint's actual response is that HTTP 500.  The label value is
compared case-insensitively against "genai" / "not genai", anything else
maps to `UNCERTAIN`.  `task_start_time` parsing is abstracted as a
pre-parsed `startTime : Option Int` (none models the silenced parse
failure, which leaves `time_spent_seconds = 0`); `now` is the clock tick
at submission.  On success the new `Label` row is inserted and the item is
marked `COMPLETED` with `completed_at` stamped; `assigned_user_id` is
untouched. -/
def submit_label (db : DB) (website_id user_id : Nat) (label_value : String)
    (tags_str ai_indicators_str human_indicators_str : String)
    (startTime : Option Int) (now : Nat) : SubmitResult × DB :=
  match db.content_items.find?
      (fun c => c.id = website_id && c.assigned_user_id = some user_id) with
  | none =>
    (SubmitResult.httpError 500
      "Failed to submit label: 400: Content item not found or not assigned to the specified user",
      db)
  | some content_item =>
    let classification :=
      if strLower label_value = "genai" then LabelClassification.ai_generated
      else if strLower label_value = "not genai" then LabelClassification.human_created
      else LabelClassification.uncertain
    let ai_indicators := splitCommaTrim ai_indicators_str
    let human_indicators := splitCommaTrim human_indicators_str
    let custom_tags := splitCommaTrim tags_str
    let time_spent_seconds : Int :=
      match startTime with
      | none => 0
      | some start => (now : Int) - start
    let new_label : Label :=
      { content_item_id := website_id
        labeler_id := user_id
        classification := classification
        confidence_score := 80
        ai_indicators := ai_indicators
        human_indicators := human_indicators
        custom_tags := custom_tags
        time_spent_seconds := max 0 time_spent_seconds }
    let c' := { content_item with
        status := ContentStatus.completed
        completed_at := some now }
    (SubmitResult.success,
      { db with
          labels := db.labels ++ [new_label]
          content_items := updateItem db.content_items c' })

/-- Embedding of `bulk_upload_content` of `src/backend/src/main.py` (lines 520–615):
for each URL, skip it when a content row with that URL already exists,
otherwise create a `PENDING` item; when `auto_assign` is set and an active
labeler exists, assign that labeler and mark the item `IN_PROGRESS`. -/
def bulk_upload_content (db : DB) (urls : List String) (priority : Nat)
    (auto_assign : Bool) : DB :=
  urls.foldl (fun acc url =>
    if acc.content_items.any (fun c => c.url = url) then acc
    else
      let base : ContentItem :=
        { id := nextContentId acc
          url := url
          status := ContentStatus.pending
          priority := priority
          assigned_user_id := none
          completed_at := none }
      let item :=
        if auto_assign then
          match acc.users.find?
              (fun u => u.role = UserRole.labeler && u.is_active) with
          | some available_labeler =>
            { base with
                assigned_user_id := some available_labeler.id
                status := ContentStatus.in_progress }
          | none => base
        else base
      { acc with content_items := acc.content_items ++ [item] }) db

/-- The newline-split-strip-filter URL parsing of `admin_upload_urls`. -/
def parseUrlLines (s : String) : List String :=
  ((splitChar (Char.ofNat 10) s.toList).map (fun cs => String.mk (trimChars cs))).filter
    (fun t => t ≠ "")

/-- Embedding of `admin_upload_urls` of `src/backend/src/main.py` (lines 1285–1395):
for each URL, if a content row with that URL exists it is either reset to
`PENDING` with the assignment and completion timestamp cleared (when
`reset_existing`) or skipped; otherwise a fresh unassigned `PENDING` item
with default priority 3 is created. -/
def admin_upload_urls (db : DB) (urls : List String) (reset_existing : Bool) : DB :=
  urls.foldl (fun acc url =>
    match acc.content_items.find? (fun c => c.url = url) with
    | some existing_content =>
      if reset_existing then
        let reset_item := { existing_content with
            status := ContentStatus.pending
            assigned_user_id := none
            completed_at := none }
        { acc with content_items := updateItem acc.content_items reset_item }
      else acc
    | none =>
      { acc with content_items := acc.content_items ++
          [{ id := nextContentId acc
             url := url
             status := ContentStatus.pending
             priority := 3
             assigned_user_id := none
             completed_at := none }] }) db

/-- Database states reachable through the core operations, starting from a
store holding any users but no content and no labels. -/
inductive Reach : DB → Prop where
  | init (users : List User) :
      Reach { users := users, content_items := [], labels := [] }
  | task (db : DB) (uid : Nat) :
      Reach db → Reach (get_labeler_task db uid).2
  | submit (db : DB) (wid uid : Nat) (lv tags ais his : String)
      (st : Option Int) (now : Nat) :
      Reach db → Reach (submit_label db wid uid lv tags ais his st now).2
  | bulk (db : DB) (urls : List String) (priority : Nat) (auto : Bool) :
      Reach db → Reach (bulk_upload_content db urls priority auto)
  | admin (db : DB) (urls : List String) (reset : Bool) :
      Reach db → Reach (admin_upload_urls db urls reset)

/-! ## Legacy variant (`src/backend/main.py`, `src/backend/models.py`)

The legacy application keeps `Website` rows with an `is_active` flag instead
of a status enum, and its task query filters out websites the requesting
labeler has already labeled and websites with three or more distinct
labelers, ordered by ascending id.  Its assignment step is commented out in
the source, so selection does not mutate the store. -/

/-- The `Website` model of `src/backend/models.py`. -/
structure Website where
  id : Nat
  url : String
  is_active : Bool
  labeler_user_id : Option Nat
deriving Repr, DecidableEq

/-- The `Label` model of `src/backend/models.py` (fields used by the task
query). -/
structure LegacyLabel where
  website_id : Nat
  user_id : Nat
  label : String
deriving Repr, DecidableEq

/-- Store of the legacy application. -/
structure LegacyDB where
  websites : List Website
  labels : List LegacyLabel
deriving Repr, DecidableEq

/-- The legacy `label_counts_subquery`: distinct labelers per website. -/
def legacyDistinctLabelerCount (db : LegacyDB) (wid : Nat) : Nat :=
  (((db.labels.filter (fun l => l.website_id = wid)).map
      (fun l => l.user_id)).dedup).length

/-- SQL `ORDER BY id` ascending followed by `.first()`. -/
def oldestById (ws : List Website) : Option Website :=
  ws.foldl (fun acc w =>
    match acc with
    | none => some w
    | some b => if w.id < b.id then some w else some b) none

/-- The selection query of the legacy `get_labeler_task`
(`src/backend/main.py` lines 56–115): active websites not yet labeled by
this user whose distinct-labeler count is below 3, oldest id first. -/
def legacy_select_task (db : LegacyDB) (uid : Nat) : Option Website :=
  oldestById (db.websites.filter (fun w =>
    w.is_active &&
    !(db.labels.any (fun l => l.website_id = w.id && l.user_id = uid)) &&
    legacyDistinctLabelerCount db w.id < 3))

/-! ## AI analysis service (`src/backend/src/ai_service.py`) -/

/-- Result of `extract_content_from_url`: the dictionary
`{title, description, content_text, word_count, error}`. -/
structure ContentData where
  title : String
  description : String
  content_text : String
  word_count : Nat
  error : Option String
deriving Repr, DecidableEq

/-- The analysis dictionary produced by `AIContentAnalyzer`: the keys of
the Gemini response schema plus the `error` key of
`_create_error_response` and the `fallback_analysis` marker (timestamp and
model-name metadata are wall-clock bookkeeping and omitted).
`classification` is kept as the raw string because the JSON passthrough
paths return whatever string the model supplied. -/
structure AnalysisResult where
  classification : String
  confidence_score : Int
  ai_indicators : List String
  human_indicators : List String
  reasoning : String
  error : Option String := none
  fallback_analysis : Bool := false
deriving Repr, DecidableEq

/-- Embedding of `_create_error_response` (lines 422–444). -/
def create_error_response (error_message : String) : AnalysisResult :=
  { classification := "uncertain"
    confidence_score := 0
    ai_indicators := []
    human_indicators := []
    reasoning := "Analysis failed: " ++ error_message
    error := some error_message }

/-- Python's `pat in s` substring test on exploded strings. -/
def charsContain (hay pat : List Char) : Bool :=
  match hay with
  | [] => pat.isEmpty
  | _ :: t => pat.isPrefixOf hay || charsContain t pat

/-- Python's `pat in s` substring test. -/
def strContains (s pat : String) : Bool :=
  charsContain s.toList pat.toList

/-- Python `any(pattern in url_lower for pattern in [...])`. -/
def anyPatternIn (s : String) (pats : List String) : Bool :=
  pats.any (fun p => strContains s p)

/-- Python `str()` of the error value as an f-string interpolates it:
`None` renders as the text "None". -/
def pyStr : Option String → String
  | none => "None"
  | some s => s

/-- Embedding of `_analyze_url_based_fallback` (lines 350–420), the deterministic
URL-structure heuristic used when content extraction failed or yielded too
little text.  The indicator taxonomy loaded from configuration is read but
unused by the detection logic, which works on hard-coded indicator ids.
The caller passes `content_data.get('error', 'Insufficient content')`,
which is `None` whenever extraction succeeded (the key is always present,
so the default is dead): f-string interpolation of `None` is fine, but the
membership test `'404' in error_reason` then raises `TypeError`, which the
function's own `except Exception` (line 418) converts into the
confidence-0 "Both content extraction and URL analysis failed" error
response — so the heuristic only runs when `error_reason` is a string. -/
def analyze_url_based_fallback (url : String) (error_reason_opt : Option String) :
    AnalysisResult :=
  match error_reason_opt with
  | none =>
    create_error_response
      ("Both content extraction and URL analysis failed: " ++ pyStr none)
  | some error_reason =>
    let url_lower := strLower url
    let detected0 : List String := []
    let reasoning0 := "Content extraction failed (" ++ error_reason ++
      "). Analysis based on URL structure and domain patterns."
    let formulaic := anyPatternIn url_lower
      ["coupon-code", "welcome-home", "best-", "top-", "how-to-"]
    let detected1 := if formulaic then detected0 ++ ["ai-4", "ai-5"] else detected0
    let confidence1 : Int := if formulaic then 45 else 30
    let reasoning1 := if formulaic then reasoning0 ++
      " URL contains formulaic patterns common in AI-generated content sites." else reasoning0
    let suspicious := anyPatternIn url_lower [".co.id", "inews", "suara"]
    let detected2 := if suspicious then detected1 ++ ["ai-17"] else detected1
    let confidence2 : Int := if suspicious then 40 else confidence1
    let reasoning2 := if suspicious then reasoning1 ++
      " Domain structure suggests potential content farm or AI-generated site." else reasoning1
    let err404 := strContains error_reason "404" ||
      strContains (strLower error_reason) "not found"
    let detected3 := if err404 then detected2 ++ ["ai-8", "ai-9"] else detected2
    let classification3 := if err404 then "ai_generated" else "uncertain"
    let confidence3 : Int := if err404 then 60 else confidence2
    let reasoning3 := if err404 then reasoning2 ++
      " 404 errors and broken links are common indicators of AI-generated content sites with poor maintenance." else reasoning2
    let classification4 := if 2 ≤ detected3.length then "ai_generated" else classification3
    let confidence4 : Int := if 2 ≤ detected3.length then max confidence3 55 else confidence3
    { classification := classification4
      confidence_score := confidence4
      ai_indicators := detected3
      human_indicators := []
      reasoning := reasoning3
      fallback_analysis := true }

/-- Embedding of `_parse_fallback_response` (lines 312–349).  The regex scan for a JSON
object embedded in the raw response text, followed by `json.loads`, cannot
be recomputed here, so its outcome is the `embedded` argument: `some r`
when an object was extracted and parsed (it is returned verbatim), `none`
when the scan or parse failed (keyword matching takes over). -/
def parse_fallback_response (response_text : String)
    (embedded : Option AnalysisResult) : AnalysisResult :=
  match embedded with
  | some r => r
  | none =>
    let text_lower := strLower response_text
    if strContains text_lower "ai_generated" || strContains text_lower "ai-generated" then
      { classification := "ai_generated"
        confidence_score := 70
        ai_indicators := ["Fallback analysis - detailed parsing failed"]
        human_indicators := []
        reasoning := "Fallback analysis due to parsing error. Raw response: " ++
          response_text }
    else if strContains text_lower "human_created" || strContains text_lower "human-created" then
      { classification := "human_created"
        confidence_score := 70
        ai_indicators := ["Fallback analysis - detailed parsing failed"]
        human_indicators := []
        reasoning := "Fallback analysis due to parsing error. Raw response: " ++
          response_text }
    else
      { classification := "uncertain"
        confidence_score := 50
        ai_indicators := ["Fallback analysis - detailed parsing failed"]
        human_indicators := []
        reasoning := "Fallback analysis due to parsing error. Raw response: " ++
          response_text }

/-- Outcome of the external `generate_content` call inside
`analyze_content_with_ai`, quantified over by the embedding:

* `exn msg` — the call (or anything in the `try` block) raised;
* `jsonObject r` — `json.loads(response.text)` produced a JSON object,
  whose schema-named fields are `r` (the code adds metadata keys and
  returns it without validating any field);
* `jsonOther` — `json.loads` produced a non-object JSON value, so the
  metadata assignment raises `TypeError`, caught by the outer handler;
* `rawText raw embedded` — `json.loads` raised `JSONDecodeError` on
  `raw`; `embedded` is the outcome of `_parse_fallback_response`'s own
  embedded-JSON extraction on `raw`. -/
inductive ModelOutcome where
  | exn (msg : String)
  | jsonObject (r : AnalysisResult)
  | jsonOther
  | rawText (raw : String) (embedded : Option AnalysisResult)
deriving Repr, DecidableEq

/-- Embedding of `analyze_content_with_ai` (lines 138–231).  `clientOk` models
`self.client` being initialized; the extraction-failure test is
`content_data.get('error') or not content_data.get('content_text') or
content_data.get('word_count', 0) < 50` (a present `error` string is never
empty, so truthiness is `isSome`).  The argument passed on to the fallback
is `content_data.get('error', 'Insufficient content')`: the extraction
dictionary always contains the `error` key (value `None` on success), so
`dict.get` returns the stored value and the `'Insufficient content'`
default is dead — a short-text successful extraction hands `None` to
`_analyze_url_based_fallback`. -/
def analyze_content_with_ai (clientOk : Bool) (content_data : ContentData)
    (url : Option String) (model : ModelOutcome) : AnalysisResult :=
  if !clientOk then create_error_response "AI client not initialized"
  else if content_data.error.isSome || content_data.content_text = "" ||
      content_data.word_count < 50 then
    match url with
    | some u =>
      analyze_url_based_fallback u content_data.error
    | none =>
      create_error_response ("Cannot analyze due to content extraction error: " ++
        pyStr content_data.error)
  else
    match model with
    | ModelOutcome.exn msg => create_error_response ("AI analysis failed: " ++ msg)
    | ModelOutcome.jsonObject r => r
    | ModelOutcome.jsonOther =>
      create_error_response "AI analysis failed: TypeError"
    | ModelOutcome.rawText raw embedded => parse_fallback_response raw embedded

/-! ## Shared helper lemmas -/

/-- A fold preserves any property preserved by each step. -/
theorem foldl_preserves {σ α : Type} (P : σ → Prop) (f : σ → α → σ)
    (hstep : ∀ s a, P s → P (f s a)) :
    ∀ (l : List α) (s : σ), P s → P (l.foldl f s) := by
  intro l
  induction l with
  | nil => intro s hs; exact hs
  | cons a t ih => intro s hs; exact ih (f s a) (hstep s a hs)

/-- The status/assignment well-formedness of a single content row. -/
def ItemOk (c : ContentItem) : Prop :=
  c.status = ContentStatus.in_progress → c.assigned_user_id ≠ none

/-- The invariant of claim C7: every `IN_PROGRESS` row has an assignee. -/
def InProgressAssigned (db : DB) : Prop :=
  ∀ c ∈ db.content_items, ItemOk c

/-- Replacing a row by a well-formed row preserves the invariant. -/
theorem itemsOk_updateItem {items : List ContentItem} {c : ContentItem}
    (h : ∀ x ∈ items, ItemOk x) (hc : ItemOk c) :
    ∀ x ∈ updateItem items c, ItemOk x := by
  intro x hx
  rcases List.mem_map.mp hx with ⟨y, hy, hxy⟩
  by_cases hid : y.id = c.id
  · simpa [updateItem, hid] using hxy ▸ (by simpa [hid] using hc)
  · have : x = y := by simpa [hid] using hxy.symm
    exact this ▸ h y hy

/-- Appending a well-formed row preserves the invariant. -/
theorem itemsOk_append {items : List ContentItem} {c : ContentItem}
    (h : ∀ x ∈ items, ItemOk x) (hc : ItemOk c) :
    ∀ x ∈ items ++ [c], ItemOk x := by
  intro x hx
  rcases List.mem_append.mp hx with hx | hx
  · exact h x hx
  · rcases List.mem_singleton.mp hx with rfl
    exact hc

/-! ## Claim theorems -/

/-- Claim C3: for every labeler who currently owns an `IN_PROGRESS` content
item, `requestTask` returns that item and changes no content-item state;
hence two consecutive `requestTask` calls by that labeler return the same
item both times (idempotent re-entry). -/
theorem c3_idempotent_reentry (db : DB) (uid : Nat)
    (h : ∃ c ∈ db.content_items,
      c.assigned_user_id = some uid ∧ c.status = ContentStatus.in_progress) :
    ∃ c ∈ db.content_items,
      c.assigned_user_id = some uid ∧ c.status = ContentStatus.in_progress ∧
      get_labeler_task db uid = (TaskResponse.task c.id c.url uid, db) ∧
      get_labeler_task (get_labeler_task db uid).2 uid =
        (TaskResponse.task c.id c.url uid, db) := by
  have hsome : (db.content_items.find? (fun c =>
      c.assigned_user_id = some uid && c.status = ContentStatus.in_progress)).isSome := by
    rw [List.find?_isSome]
    obtain ⟨c, hc, h1, h2⟩ := h
    exact ⟨c, hc, by simp [h1, h2]⟩
  obtain ⟨c, hfind⟩ := Option.isSome_iff_exists.mp hsome
  have hp := List.find?_some hfind
  have hmem := List.mem_of_find?_eq_some hfind
  simp only [Bool.and_eq_true, decide_eq_true_eq] at hp
  have heq : get_labeler_task db uid = (TaskResponse.task c.id c.url uid, db) := by
    unfold get_labeler_task
    rw [hfind]
  refine ⟨c, hmem, hp.1, hp.2, heq, ?_⟩
  rw [heq]
  exact heq

/-- Witness for C3 at a one-item store owned by labeler 2. -/
theorem c3_idempotent_reentry_witness :
    ∃ c ∈ (DB.mk [] [ContentItem.mk 1 "http://a.test" ContentStatus.in_progress 3 (some 2) none] []).content_items,
      c.assigned_user_id = some 2 ∧ c.status = ContentStatus.in_progress ∧
      get_labeler_task (DB.mk [] [ContentItem.mk 1 "http://a.test" ContentStatus.in_progress 3 (some 2) none] []) 2 =
        (TaskResponse.task c.id c.url 2,
          DB.mk [] [ContentItem.mk 1 "http://a.test" ContentStatus.in_progress 3 (some 2) none] []) ∧
      get_labeler_task (get_labeler_task (DB.mk [] [ContentItem.mk 1 "http://a.test" ContentStatus.in_progress 3 (some 2) none] []) 2).2 2 =
        (TaskResponse.task c.id c.url 2,
          DB.mk [] [ContentItem.mk 1 "http://a.test" ContentStatus.in_progress 3 (some 2) none] []) :=
  c3_idempotent_reentry
    (DB.mk [] [ContentItem.mk 1 "http://a.test" ContentStatus.in_progress 3 (some 2) none] []) 2
    ⟨ContentItem.mk 1 "http://a.test" ContentStatus.in_progress 3 (some 2) none,
      by simp, by simp, by simp⟩

/-- Claim C5 fails as stated: when the content item is missing or not
assigned to the submitting labeler (here item 1 is assigned to labeler 2
and labeler 9 submits), the internally raised HTTP 400 is caught by the
endpoint's own generic `except Exception` handler and re-raised as the
HTTP 500 "Failed to submit label: 400: Content item not found or not
assigned to the specified user".  The call still persists no `Label` row
and leaves the store unchanged, but the response is never the HTTP 400
the handler's own raise — and the claim — intend. -/
theorem c5_not_assigned_wrapped_as_500 :
    submit_label (DB.mk [] [ContentItem.mk 1 "http://a.test" ContentStatus.in_progress 3 (some 2) none] []) 1 9 "genai" "" "" "" none 5 =
      (SubmitResult.httpError 500
        "Failed to submit label: 400: Content item not found or not assigned to the specified user",
        DB.mk [] [ContentItem.mk 1 "http://a.test" ContentStatus.in_progress 3 (some 2) none] []) ∧
    (submit_label (DB.mk [] [ContentItem.mk 1 "http://a.test" ContentStatus.in_progress 3 (some 2) none] []) 1 9 "genai" "" "" "" none 5).1 ≠
      SubmitResult.httpError 400
        "Content item not found or not assigned to the specified user" := by decide

/-- A one-row store whose item is `IN_PROGRESS` and assigned to labeler 2,
used by concrete witnesses. -/
def sampleAssignedDB : DB :=
  DB.mk [] [ContentItem.mk 1 "http://a.test" ContentStatus.in_progress 3 (some 2) none] []

/-- Claim C6: every successful `submitLabel` call persists a `Label` row
for the (content item, labeler) pair, marks the item `COMPLETED`, stamps
its completion timestamp, and leaves the assigned-labeler reference still
pointing at the submitting labeler. -/
theorem c6_submit_success_effects (db : DB) (wid uid : Nat)
    (lv tags ais his : String) (st : Option Int) (now : Nat)
    (h : ∃ c ∈ db.content_items, c.id = wid ∧ c.assigned_user_id = some uid) :
    (submit_label db wid uid lv tags ais his st now).1 = SubmitResult.success ∧
    (∃ l ∈ (submit_label db wid uid lv tags ais his st now).2.labels,
        l.content_item_id = wid ∧ l.labeler_id = uid) ∧
    (∃ c ∈ (submit_label db wid uid lv tags ais his st now).2.content_items,
        c.id = wid ∧ c.status = ContentStatus.completed ∧
        c.completed_at = some now ∧ c.assigned_user_id = some uid) := by
  have hsome : (db.content_items.find?
      (fun c => c.id = wid && c.assigned_user_id = some uid)).isSome := by
    rw [List.find?_isSome]
    obtain ⟨c, hc, h1, h2⟩ := h
    exact ⟨c, hc, by simp [h1, h2]⟩
  obtain ⟨c, hfind⟩ := Option.isSome_iff_exists.mp hsome
  have hp := List.find?_some hfind
  have hmem := List.mem_of_find?_eq_some hfind
  simp only [Bool.and_eq_true, decide_eq_true_eq] at hp
  unfold submit_label
  rw [hfind]
  refine ⟨rfl, ⟨_, List.mem_append_right _ (List.mem_singleton.mpr rfl), ?_, ?_⟩, ?_⟩
  · rfl
  · rfl
  refine ⟨{ c with status := ContentStatus.completed, completed_at := some now },
    List.mem_map.mpr ⟨c, hmem, by simp⟩, hp.1, rfl, rfl, hp.2⟩

/-- Witness for C6 at the one-row assigned store. -/
theorem c6_submit_success_effects_witness :
    (submit_label sampleAssignedDB 1 2 "not genai" "" "" "" (some 0) 5).1 = SubmitResult.success ∧
    (∃ l ∈ (submit_label sampleAssignedDB 1 2 "not genai" "" "" "" (some 0) 5).2.labels,
        l.content_item_id = 1 ∧ l.labeler_id = 2) ∧
    (∃ c ∈ (submit_label sampleAssignedDB 1 2 "not genai" "" "" "" (some 0) 5).2.content_items,
        c.id = 1 ∧ c.status = ContentStatus.completed ∧
        c.completed_at = some 5 ∧ c.assigned_user_id = some 2) :=
  c6_submit_success_effects sampleAssignedDB 1 2 "not genai" "" "" "" (some 0) 5 (by decide)

/-- Claim C10: `submit_label` accepts every `label_value` string: the value
"genai" (case-insensitively) maps to `AI_GENERATED`, "not genai" to
`HUMAN_CREATED`, and every other string is silently mapped to `UNCERTAIN`;
an unrecognized value never causes a rejection. -/
theorem c10_any_label_value_accepted (db : DB) (wid uid : Nat)
    (lv tags ais his : String) (st : Option Int) (now : Nat)
    (h : ∃ c ∈ db.content_items, c.id = wid ∧ c.assigned_user_id = some uid) :
    (submit_label db wid uid lv tags ais his st now).1 = SubmitResult.success ∧
    ∃ l, (submit_label db wid uid lv tags ais his st now).2.labels = db.labels ++ [l] ∧
      l.content_item_id = wid ∧ l.labeler_id = uid ∧
      l.classification =
        (if strLower lv = "genai" then LabelClassification.ai_generated
         else if strLower lv = "not genai" then LabelClassification.human_created
         else LabelClassification.uncertain) := by
  have hsome : (db.content_items.find?
      (fun c => c.id = wid && c.assigned_user_id = some uid)).isSome := by
    rw [List.find?_isSome]
    obtain ⟨c, hc, h1, h2⟩ := h
    exact ⟨c, hc, by simp [h1, h2]⟩
  obtain ⟨c, hfind⟩ := Option.isSome_iff_exists.mp hsome
  unfold submit_label
  rw [hfind]
  exact ⟨rfl, _, rfl, rfl, rfl, rfl⟩

/-- Witness for C10: the unrecognized value "WeIrD" is accepted and stored
as `UNCERTAIN`. -/
theorem c10_any_label_value_accepted_witness :
    (submit_label sampleAssignedDB 1 2 "WeIrD" "" "" "" none 5).1 = SubmitResult.success ∧
    ∃ l, (submit_label sampleAssignedDB 1 2 "WeIrD" "" "" "" none 5).2.labels =
        sampleAssignedDB.labels ++ [l] ∧
      l.content_item_id = 1 ∧ l.labeler_id = 2 ∧
      l.classification =
        (if strLower "WeIrD" = "genai" then LabelClassification.ai_generated
         else if strLower "WeIrD" = "not genai" then LabelClassification.human_created
         else LabelClassification.uncertain) :=
  c10_any_label_value_accepted sampleAssignedDB 1 2 "WeIrD" "" "" "" none 5 (by decide)

/-- Claim C7: in every state reachable via the core operations (task
request, label submission, bulk upload with auto-assign, admin URL
upload/reset), every `ContentItem` whose status is `IN_PROGRESS` has a
non-null assigned-labeler reference. -/
theorem c7_reachable_in_progress_assigned (db : DB) (h : Reach db) :
    InProgressAssigned db := by
  induction h with
  | init users =>
    intro c hc
    simp at hc
  | task db uid _ ih =>
    unfold get_labeler_task
    split
    · exact ih
    · split
      · exact ih
      · next c _ =>
        intro x hx
        refine itemsOk_updateItem ih ?_ x hx
        intro _
        by_cases hass : c.assigned_user_id = some uid
        · simp [hass]
        · simp [hass]
  | submit db wid uid lv tags ais his st now _ ih =>
    unfold submit_label
    split
    · exact ih
    · intro x hx
      refine itemsOk_updateItem ih ?_ x hx
      intro hst
      exact ContentStatus.noConfusion hst
  | bulk db urls priority auto _ ih =>
    unfold bulk_upload_content
    refine foldl_preserves InProgressAssigned _ ?_ urls db ih
    intro s a hs
    dsimp only
    split
    · exact hs
    · intro x hx
      refine itemsOk_append hs ?_ x hx
      cases auto with
      | false =>
        intro hst
        exact ContentStatus.noConfusion hst
      | true =>
        cases hfind : s.users.find? (fun u => u.role = UserRole.labeler && u.is_active) with
        | none =>
          simp only [hfind]
          intro hst
          exact ContentStatus.noConfusion hst
        | some u =>
          simp only [hfind]
          intro _
          simp
  | admin db urls reset _ ih =>
    unfold admin_upload_urls
    refine foldl_preserves InProgressAssigned _ ?_ urls db ih
    intro s a hs
    dsimp only
    split
    · split
      · intro x hx
        refine itemsOk_updateItem hs ?_ x hx
        intro hst
        exact ContentStatus.noConfusion hst
      · exact hs
    · intro x hx
      refine itemsOk_append hs ?_ x hx
      intro hst
      exact ContentStatus.noConfusion hst

/-- Witness for C7: a store reached by a bulk upload with auto-assign. -/
theorem c7_reachable_in_progress_assigned_witness :
    InProgressAssigned
      (bulk_upload_content (DB.mk [User.mk 2 UserRole.labeler true] [] []) ["http://a.test"] 3 true) :=
  c7_reachable_in_progress_assigned _
    (Reach.bulk _ ["http://a.test"] 3 true (Reach.init [User.mk 2 UserRole.labeler true]))

/-- Four active labelers, for the consensus counter-evidence store. -/
def fourLabelers : List User :=
  [User.mk 1 UserRole.labeler true, User.mk 2 UserRole.labeler true,
   User.mk 3 UserRole.labeler true, User.mk 4 UserRole.labeler true]

/-- A label row on content item 1 by labeler `uid`. -/
def consensusLabel (uid : Nat) : Label :=
  Label.mk 1 uid LabelClassification.human_created 80 [] [] [] 0

/-- A store holding one `PENDING` item that already carries labels from
three distinct labelers (reachable through three submit/reset cycles of
`admin_upload_urls` with `reset_existing`). -/
def consensusDB : DB :=
  DB.mk fourLabelers
    [ContentItem.mk 1 "http://a.test" ContentStatus.pending 3 none none]
    [consensusLabel 1, consensusLabel 2, consensusLabel 3]

/-- The same store as seen by the legacy application. -/
def consensusLegacyDB : LegacyDB :=
  LegacyDB.mk [Website.mk 1 "http://a.test" true none]
    [LegacyLabel.mk 1 1 "Not GenAI", LegacyLabel.mk 1 2 "Not GenAI",
     LegacyLabel.mk 1 3 "Not GenAI"]

/-- Claim C1 fails on the current backend: `get_labeler_task` assigns a
`PENDING` item that already has labels from three distinct labelers to a
fourth labeler, because its availability query never consults the
`labels` table; the legacy variant's query excludes the same item. -/
theorem c1_consensus_threshold_not_enforced :
    distinctLabelerCount consensusDB 1 = 3 ∧
    (get_labeler_task consensusDB 4).1 = TaskResponse.task 1 "http://a.test" 4 ∧
    ((get_labeler_task consensusDB 4).2.content_items.any
      (fun c => c.id = 1 && c.status = ContentStatus.in_progress &&
        c.assigned_user_id = some 4)) = true ∧
    legacy_select_task consensusLegacyDB 4 = none := by decide

/-- Claim C2 fails on the current backend: a second `submit_label` call
for the same (content item, labeler) pair succeeds and persists a second
`Label` row — the content query does not filter on status and no
already-labeled check or uniqueness constraint exists. -/
theorem c2_duplicate_label_not_rejected :
    ((submit_label sampleAssignedDB 1 2 "genai" "" "" "" (some 0) 5).2.labels.filter
        (fun l => l.content_item_id = 1 && l.labeler_id = 2)).length = 1 ∧
    (submit_label (submit_label sampleAssignedDB 1 2 "genai" "" "" "" (some 0) 5).2
        1 2 "genai" "" "" "" (some 0) 9).1 = SubmitResult.success ∧
    ((submit_label (submit_label sampleAssignedDB 1 2 "genai" "" "" "" (some 0) 5).2
        1 2 "genai" "" "" "" (some 0) 9).2.labels.filter
        (fun l => l.content_item_id = 1 && l.labeler_id = 2)).length = 2 := by decide

/-- A store whose only `PENDING` item has already been labeled by the
requesting labeler 7 (reachable: labeler 7 completed it, then an admin
reset returned it to `PENDING`). -/
def labeledOnceDB : DB :=
  DB.mk [User.mk 7 UserRole.labeler true]
    [ContentItem.mk 1 "http://u1.test" ContentStatus.pending 3 none none]
    [Label.mk 1 7 LabelClassification.human_created 80 [] [] [] 0]

/-- The same store as seen by the legacy application. -/
def labeledOnceLegacyDB : LegacyDB :=
  LegacyDB.mk [Website.mk 1 "http://u1.test" true none]
    [LegacyLabel.mk 1 7 "Not GenAI"]

/-- Claim C4 fails on the current backend: the set of `PENDING` items the
requesting labeler has not already labeled is empty, yet
`get_labeler_task` still selects and assigns the already-labeled item —
its query has no already-labeled exclusion (and no explicit ordering);
the legacy variant's query selects nothing here. -/
theorem c4_already_labeled_item_selected :
    hasLabel labeledOnceDB 1 7 = true ∧
    (∀ c ∈ labeledOnceDB.content_items, c.status = ContentStatus.pending →
      hasLabel labeledOnceDB c.id 7 = true) ∧
    (get_labeler_task labeledOnceDB 7).1 = TaskResponse.task 1 "http://u1.test" 7 ∧
    legacy_select_task labeledOnceLegacyDB 7 = none := by decide

/-- The classification/confidence behaviour of the URL-structure fallback
when the extraction error reason is an actual string (extraction failed):
the classification is `ai_generated` exactly when at least two AI-indicator
ids accumulated, otherwise `uncertain`, and the confidence always lies in
`[30, 60]`. -/
theorem analyze_url_based_fallback_spec (url err : String) :
    ((analyze_url_based_fallback url (some err)).classification = "ai_generated" ↔
      2 ≤ (analyze_url_based_fallback url (some err)).ai_indicators.length) ∧
    ((analyze_url_based_fallback url (some err)).classification = "ai_generated" ∨
      (analyze_url_based_fallback url (some err)).classification = "uncertain") ∧
    30 ≤ (analyze_url_based_fallback url (some err)).confidence_score ∧
    (analyze_url_based_fallback url (some err)).confidence_score ≤ 60 := by
  unfold analyze_url_based_fallback
  cases hf : anyPatternIn (strLower url)
      ["coupon-code", "welcome-home", "best-", "top-", "how-to-"] <;>
  cases hs : anyPatternIn (strLower url) [".co.id", "inews", "suara"] <;>
  cases he : (strContains err "404" || strContains (strLower err) "not found") <;>
  simp [hf, hs, he]

/-- Well-formedness of an analysis result as the spec requires it:
classification in the enumeration and confidence within `[0, 100]`. -/
def WellFormedResult (r : AnalysisResult) : Prop :=
  (r.classification = "ai_generated" ∨ r.classification = "human_created" ∨
    r.classification = "uncertain") ∧
  0 ≤ r.confidence_score ∧ r.confidence_score ≤ 100

/-- The model outcomes on which `analyze_content_with_ai` returns a JSON
object parsed from the model response verbatim (no field validation). -/
def jsonPassthrough : ModelOutcome → Option AnalysisResult
  | ModelOutcome.jsonObject r => some r
  | ModelOutcome.rawText _ (some r) => some r
  | _ => none

/-- Error responses are well formed (uncertain, confidence 0). -/
theorem create_error_response_wf (msg : String) :
    WellFormedResult (create_error_response msg) :=
  ⟨Or.inr (Or.inr rfl), by simp [create_error_response], by simp [create_error_response]⟩

/-- The keyword-matching branch of the fallback parser is well formed. -/
theorem parse_fallback_keyword_wf (raw : String) :
    WellFormedResult (parse_fallback_response raw none) := by
  unfold parse_fallback_response
  dsimp only
  split
  · exact ⟨Or.inl rfl, by simp, by simp⟩
  · split
    · exact ⟨Or.inr (Or.inl rfl), by simp, by simp⟩
    · exact ⟨Or.inr (Or.inr rfl), by simp, by simp⟩

/-- The URL-structure fallback is well formed for every error reason: the
`None` reason takes the internal-TypeError path to the confidence-0 error
response, a string reason runs the heuristic. -/
theorem analyze_url_based_fallback_wf (url : String) (err : Option String) :
    WellFormedResult (analyze_url_based_fallback url err) := by
  cases err with
  | none => exact create_error_response_wf _
  | some e =>
    obtain ⟨_, hcls, h30, h60⟩ := analyze_url_based_fallback_spec url e
    refine ⟨?_, by omega, by omega⟩
    rcases hcls with h | h
    · exact Or.inl h
    · exact Or.inr (Or.inr h)

/-- Claim C9 fails on a fallback case the claim covers: a successful
extraction below the 50-word minimum hands `error_reason = None` to the
URL fallback (the key is always present, so the `dict.get` default
`'Insufficient content'` is dead), the `'404' in error_reason` membership
test raises `TypeError`, and the function's own exception handler returns
the confidence-0 uncertain error response — outside the claimed `[30, 60]`
range — even though the URL matches two AI-indicator URL patterns, which
with the string reason the author evidently intended would have produced
`ai_generated` at confidence 55 (last two conjuncts). -/
theorem c9_short_text_fallback_error_response :
    (analyze_content_with_ai true
        (ContentData.mk "t" "d" "a short but successfully extracted page" 6 none)
        (some "http://best-coupon-code.example/top-deals")
        (ModelOutcome.exn "unused")).classification = "uncertain" ∧
    (analyze_content_with_ai true
        (ContentData.mk "t" "d" "a short but successfully extracted page" 6 none)
        (some "http://best-coupon-code.example/top-deals")
        (ModelOutcome.exn "unused")).confidence_score = 0 ∧
    (analyze_content_with_ai true
        (ContentData.mk "t" "d" "a short but successfully extracted page" 6 none)
        (some "http://best-coupon-code.example/top-deals")
        (ModelOutcome.exn "unused")).error =
      some "Both content extraction and URL analysis failed: None" ∧
    ¬ (30 ≤ (analyze_content_with_ai true
        (ContentData.mk "t" "d" "a short but successfully extracted page" 6 none)
        (some "http://best-coupon-code.example/top-deals")
        (ModelOutcome.exn "unused")).confidence_score) ∧
    (analyze_url_based_fallback "http://best-coupon-code.example/top-deals"
        (some "Insufficient content")).classification = "ai_generated" ∧
    (analyze_url_based_fallback "http://best-coupon-code.example/top-deals"
        (some "Insufficient content")).confidence_score = 55 := by decide

/-- Claim C8 (amended): `analyze_content_with_ai` always returns a result;
whenever the model call raises on the primary path, the result is exactly
the uncertain/confidence-0 error response carrying the error text; the
result is well formed (classification in the enumeration, confidence in
`[0, 100]`) on every path except the JSON passthrough; and on the primary
path a model response that parses as a JSON object is returned verbatim,
without validating its classification or confidence fields. -/
theorem c8_total_and_error_conversion (clientOk : Bool) (cd : ContentData)
    (url : Option String) (model : ModelOutcome) :
    (clientOk = true → cd.error = none → cd.content_text ≠ "" → 50 ≤ cd.word_count →
      ∀ msg, model = ModelOutcome.exn msg →
        analyze_content_with_ai clientOk cd url model =
          create_error_response ("AI analysis failed: " ++ msg)) ∧
    (jsonPassthrough model = none →
      WellFormedResult (analyze_content_with_ai clientOk cd url model)) ∧
    (clientOk = true → cd.error = none → cd.content_text ≠ "" → 50 ≤ cd.word_count →
      ∀ r, jsonPassthrough model = some r →
        analyze_content_with_ai clientOk cd url model = r) := by
  refine ⟨?_, ?_, ?_⟩
  · intro hc he ht hw msg hm
    subst hm
    unfold analyze_content_with_ai
    simp [hc, he, ht, Nat.not_lt.mpr hw]
  · intro hnone
    unfold analyze_content_with_ai
    split
    · exact create_error_response_wf _
    · split
      · cases url with
        | some u => exact analyze_url_based_fallback_wf u _
        | none => exact create_error_response_wf _
      · cases model with
        | exn msg => exact create_error_response_wf _
        | jsonObject r => simp [jsonPassthrough] at hnone
        | jsonOther => exact create_error_response_wf _
        | rawText raw embedded =>
          cases embedded with
          | some r => simp [jsonPassthrough] at hnone
          | none => exact parse_fallback_keyword_wf raw
  · intro hc he ht hw r hr
    unfold analyze_content_with_ai
    simp only [hc, Bool.not_true, Bool.false_eq_true, if_false]
    rw [if_neg]
    · cases model with
      | exn msg => simp [jsonPassthrough] at hr
      | jsonObject r' =>
        simp only [jsonPassthrough, Option.some.injEq] at hr
        exact hr
      | jsonOther => simp [jsonPassthrough] at hr
      | rawText raw embedded =>
        cases embedded with
        | some r' =>
          simp only [jsonPassthrough, Option.some.injEq] at hr
          simp [parse_fallback_response, hr]
        | none => simp [jsonPassthrough] at hr
    · simp [he, ht, Nat.not_lt.mpr hw]

/-- Witness for C8 at a primary-path input whose model call raised. -/
theorem c8_total_and_error_conversion_witness :
    analyze_content_with_ai true (ContentData.mk "t" "d" "enough text" 100 none) none
        (ModelOutcome.exn "boom") =
      create_error_response ("AI analysis failed: " ++ "boom") ∧
    WellFormedResult
      (analyze_content_with_ai true (ContentData.mk "t" "d" "enough text" 100 none) none
        (ModelOutcome.exn "boom")) := by
  obtain ⟨h1, h2, _⟩ := c8_total_and_error_conversion true
    (ContentData.mk "t" "d" "enough text" 100 none) none (ModelOutcome.exn "boom")
  exact ⟨h1 rfl rfl (by simp) (by norm_num) "boom" rfl, h2 rfl⟩

/-- The result returned when the model answers the primary path with a
schema-violating JSON object. -/
def passthroughProbe : AnalysisResult :=
  analyze_content_with_ai true
    (ContentData.mk "t" "d" "plenty of words from a long page" 100 none)
    (some "http://x.test")
    (ModelOutcome.jsonObject
      (AnalysisResult.mk "banana" 150 [] [] "model reasoning" none false))

/-- Counterexample to claim C8 as stated: with extraction succeeded (100
words, no error) and a model response that parses as the JSON object
`classification := "banana", confidence_score := 150`, the returned
result's classification is outside the enumeration and its confidence is
above 100 — the parsed response is not validated against the schema. -/
theorem c8_schema_passthrough_counterexample :
    passthroughProbe.classification = "banana" ∧
    passthroughProbe.confidence_score = 150 ∧
    ¬ ((passthroughProbe.classification = "ai_generated" ∨
        passthroughProbe.classification = "human_created" ∨
        passthroughProbe.classification = "uncertain") ∧
       0 ≤ passthroughProbe.confidence_score ∧
       passthroughProbe.confidence_score ≤ 100) := by decide

end GenAI
